import Mathlib

/-!
Shallow embedding of the authentication subsystem of the contact-management
API (FastAPI + SQLAlchemy + redis).  The embedded code lives in
`src/services/auth.py`, `src/routes/auth.py`, `src/repository/users.py` and
`src/routes/contacts.py`.

Modelling conventions:
* JWTs are deterministic encodings of their payload under the process-wide
  secret key, so a well-signed token is identified with its payload
  (`Bearer.signed`), and any string that is not a well-signed token is
  `Bearer.garbage`.  Equality of `Bearer` values mirrors string equality of
  the encoded tokens.
* A JWT claim set is a `Payload`.  The `sub` claim is `Option (Option String)`:
  the outer layer records whether the claim is present at all (a missing claim
  makes `payload["sub"]` raise `KeyError`), the inner layer records a JSON
  null.  The `scope` claim is `Option String` (absent vs. its string value);
  the code only ever compares its value to string literals, so a JSON-null
  scope behaves like any non-matching value.  `iat`/`exp` are always present
  in tokens produced by this code and are integral UNIX seconds, as produced
  by `python-jose`.
* `jwt.decode` verifies the signature and the `exp` claim and raises
  `JWTError` on either failure; `python-jose` treats a token as expired
  exactly when `exp < now`.
* Python-level outcomes are an `Outcome`: a returned value, a raised
  `HTTPException` (status code + detail), an uncaught `KeyError`, or an
  uncaught `AttributeError` (attribute access on `None`).
* The users table is a `List User`; `.first()` is `List.find?`; committing an
  attribute assignment on a fetched row updates every row with that primary
  key.  The redis cache is a list of keyed entries with absolute expiry.
-/

namespace ContactsApi

/-- A decoded JWT claim set, see the modelling conventions above. -/
structure Payload where
  sub : Option (Option String)
  scope : Option String
  iat : Nat
  exp : Nat
deriving DecidableEq, Repr

/-- A bearer-token string: either the deterministic encoding of a payload
signed with the application secret, or a string that fails signature
verification (malformed, truncated, or signed under another key). -/
inductive Bearer where
  | signed (p : Payload)
  | garbage (s : String)
deriving DecidableEq, Repr

/-- Result of `jose.jwt.decode`: the claim set, or a raised `JWTError`
(signature failure or `ExpiredSignatureError`). -/
inductive DecodeResult where
  | ok (p : Payload)
  | jwtError
deriving DecidableEq, Repr

/-- Embeds `jwt.decode(token, SECRET_KEY, algorithms=[ALGORITHM])` at current
time `now`: garbage fails signature verification; a well-signed token is
expired exactly when `exp < now`. -/
def jwtDecode (b : Bearer) (now : Nat) : DecodeResult :=
  match b with
  | .garbage _ => .jwtError
  | .signed p => if p.exp < now then .jwtError else .ok p

/-- Embeds `Auth.create_access_token` (src/services/auth.py:48-78): copies the
caller data (always `{"sub": email}` at call sites), adds `iat = now`,
`exp = now + expires_delta` (default 15 minutes = 900 s), and
`scope = "access_token"`, then signs. -/
def create_access_token (sub : Option String) (expires_delta : Option Nat) (now : Nat) : Bearer :=
  Bearer.signed
    { sub := some sub
      scope := some "access_token"
      iat := now
      exp := now + (match expires_delta with | some d => d | none => 900) }

/-- Embeds `Auth.create_refresh_token` (src/services/auth.py:80-109): like
`create_access_token` but `scope = "refresh_token"` and default lifetime
7 days = 604800 s. -/
def create_refresh_token (sub : Option String) (expires_delta : Option Nat) (now : Nat) : Bearer :=
  Bearer.signed
    { sub := some sub
      scope := some "refresh_token"
      iat := now
      exp := now + (match expires_delta with | some d => d | none => 604800) }

/-- Embeds `Auth.create_email_token` (src/services/auth.py:179-192): adds only
`iat` and `exp` (7 days) to the caller data; note that NO `scope` claim is
set. -/
def create_email_token (sub : Option String) (now : Nat) : Bearer :=
  Bearer.signed { sub := some sub, scope := none, iat := now, exp := now + 604800 }

/-- Outcome of running a Python handler: a returned value, a raised
`HTTPException status_code detail`, an uncaught `KeyError` on a missing dict
key, or an uncaught `AttributeError` from attribute access on `None`. -/
inductive Outcome (α : Type) where
  | ok (a : α)
  | http (code : Nat) (detail : String)
  | keyError (key : String)
  | attrError (attr : String)
deriving DecidableEq, Repr

/-- Embeds `Auth.decode_refresh_token` (src/services/auth.py:111-137): decode;
on `JWTError` raise 401 "Could not validate credentials"; if
`payload["scope"] == "refresh_token"` return `payload["sub"]`; otherwise raise
401 "Invalid scope for token".  The dict lookups `payload["scope"]` and
`payload["sub"]` raise `KeyError` on a missing claim, which the
`except JWTError` clause does not catch. -/
def decode_refresh_token (token : Bearer) (now : Nat) : Outcome (Option String) :=
  match jwtDecode token now with
  | .jwtError => .http 401 "Could not validate credentials"
  | .ok p =>
    match p.scope with
    | none => .keyError "scope"
    | some sc =>
      if sc = "refresh_token" then
        match p.sub with
        | none => .keyError "sub"
        | some email => .ok email
      else .http 401 "Invalid scope for token"

/-- Embeds `Auth.get_email_from_token` (src/services/auth.py:194-212): decode;
on `JWTError` raise 422 "Invalid token for email verification"; otherwise
return `payload["sub"]` with NO scope check (`KeyError` if the claim is
missing). -/
def get_email_from_token (token : Bearer) (now : Nat) : Outcome (Option String) :=
  match jwtDecode token now with
  | .jwtError => .http 422 "Invalid token for email verification"
  | .ok p =>
    match p.sub with
    | none => .keyError "sub"
    | some email => .ok email

/-- A row of the `users` table (src/database/models.py:21-30).  The
`refresh_token` column stores the encoded token string or NULL, modelled as
`Option Bearer` (token encoding is injective). -/
structure User where
  id : Nat
  username : String
  email : String
  avatar : Option String
  password : String
  created_at : Nat
  refresh_token : Option Bearer
  confirmed : Bool
deriving DecidableEq, Repr

/-- Embeds `get_user_by_email` (src/repository/users.py:9-20):
`db.query(User).filter(User.email == email).first()`.  A SQL comparison with
NULL matches no row, hence the `Option String` argument. -/
def get_user_by_email (email : Option String) (db : List User) : Option User :=
  db.find? (fun u => some u.email = email)

/-- Embeds `update_token` (src/repository/users.py:41-55):
`user.refresh_token = token; db.commit()` updates the fetched row, identified
by primary key. -/
def update_token (user : User) (token : Option Bearer) (db : List User) : List User :=
  db.map (fun u => if u.id = user.id then { u with refresh_token := token } else u)

/-- Embeds repository `confirmed_email` (src/repository/users.py:58-71):
re-fetches the user by email and sets `confirmed = True`; if the fetch
returns `None`, `user.confirmed = True` raises `AttributeError`. -/
def repo_confirmed_email (email : Option String) (db : List User) : Outcome (List User) :=
  match get_user_by_email email db with
  | none => .attrError "confirmed"
  | some u => .ok (db.map (fun v => if v.id = u.id then { v with confirmed := true } else v))

/-- Embeds `update_password` (src/repository/users.py:73-87):
`user.password = password; db.commit()`. -/
def update_password (user : User) (password : String) (db : List User) : List User :=
  db.map (fun u => if u.id = user.id then { u with password := password } else u)

/-- A live redis entry: key, pickled user snapshot, absolute expiry time
(`SET` followed by `EXPIRE ttl` yields `expireAt = now + ttl`). -/
structure CacheEntry where
  key : String
  user : User
  expireAt : Nat
deriving DecidableEq, Repr

/-- Redis `GET` at time `now`: the value of the first entry for the key if it
has not yet expired (a key with elapsed TTL behaves as absent). -/
def cacheGet (c : List CacheEntry) (k : String) (now : Nat) : Option User :=
  match c.find? (fun e => e.key = k) with
  | none => none
  | some e => if now < e.expireAt then some e.user else none

/-- Redis `SET key value` + `EXPIRE key ttl`: unconditional overwrite of the
key with absolute expiry `expireAt`. -/
def cacheSet (c : List CacheEntry) (k : String) (u : User) (expireAt : Nat) : List CacheEntry :=
  ⟨k, u, expireAt⟩ :: c.filter (fun e => e.key ≠ k)

/-- Embeds `Auth.get_current_user` (src/services/auth.py:139-177): decode the
bearer token (any `JWTError` raises the single `credentials_exception`,
401 "Could not validate credentials"); require `scope == "access_token"` and a
non-null `sub`, raising the same exception otherwise (`KeyError` on a missing
claim escapes the `except JWTError` clause); then `r.get(email)` — on a cache
hit return the unpickled snapshot, on a miss query the users table, raising
the credentials exception if absent, else cache the row for 120 seconds and
return it.  Returns the resulting outcome together with the cache state. -/
def get_current_user (token : Bearer) (db : List User) (cache : List CacheEntry) (now : Nat) :
    Outcome User × List CacheEntry :=
  match jwtDecode token now with
  | .jwtError => (.http 401 "Could not validate credentials", cache)
  | .ok p =>
    match p.scope with
    | none => (.keyError "scope", cache)
    | some sc =>
      if sc = "access_token" then
        match p.sub with
        | none => (.keyError "sub", cache)
        | some subClaim =>
          match subClaim with
          | none => (.http 401 "Could not validate credentials", cache)
          | some email =>
            match cacheGet cache email now with
            | some u => (.ok u, cache)
            | none =>
              match get_user_by_email (some email) db with
              | none => (.http 401 "Could not validate credentials", cache)
              | some u => (.ok u, cacheSet cache email u (now + 120))
      else (.http 401 "Could not validate credentials", cache)

/-- The token pair returned by `login` and `refresh_token`
(schema `TokenModel`): access token, refresh token, `token_type = "bearer"`. -/
structure TokenPair where
  access_token : Bearer
  refresh_token : Bearer
  token_type : String
deriving DecidableEq, Repr

/-- Embeds the `POST /auth/login` handler (src/routes/auth.py:66-91).
`verify` stands for `auth_service.verify_password` (bcrypt, an external
collaborator).  401 "Invalid email" if no user, 401 "Email not confirmed" if
unconfirmed, 401 "Invalid password" if verification fails; otherwise issue an
access and a refresh token for `user.email` at time `now`, persist the
refresh token via `update_token`, and return the pair. -/
def login (verify : String → String → Bool) (db : List User)
    (username password : String) (now : Nat) : Outcome TokenPair × List User :=
  match get_user_by_email (some username) db with
  | none => (.http 401 "Invalid email", db)
  | some user =>
    if !user.confirmed then (.http 401 "Email not confirmed", db)
    else if !(verify password user.password) then (.http 401 "Invalid password", db)
    else
      let access := create_access_token (some user.email) none now
      let refresh := create_refresh_token (some user.email) none now
      (.ok ⟨access, refresh, "bearer"⟩, update_token user (some refresh) db)

/-- Embeds the `GET /auth/confirmed_email/{token}` handler
(src/routes/auth.py:94-105): decode via `get_email_from_token` (propagating
its 422 / `KeyError` failures); 400 "Verification error" if the email resolves
to no user; "Your email is already confirmed" without touching the database if
already confirmed; otherwise set the flag via the repository and return
"Email confirmed". -/
def confirmed_email_route (token : Bearer) (db : List User) (now : Nat) :
    Outcome String × List User :=
  match get_email_from_token token now with
  | .ok email =>
    match get_user_by_email email db with
    | none => (.http 400 "Verification error", db)
    | some u =>
      if u.confirmed then (.ok "Your email is already confirmed", db)
      else
        match repo_confirmed_email email db with
        | .ok db' => (.ok "Email confirmed", db')
        | .http c d => (.http c d, db)
        | .keyError k => (.keyError k, db)
        | .attrError a => (.attrError a, db)
  | .http c d => (.http c d, db)
  | .keyError k => (.keyError k, db)
  | .attrError a => (.attrError a, db)

/-- Embeds the `POST /auth/request_email` handler (src/routes/auth.py:108-123).
The boolean records whether a confirmation email task was enqueued.  Note the
source reads `user.confirmed` BEFORE its `if user:` guard, so an unknown
address raises `AttributeError` on `None`. -/
def request_email_route (email : String) (db : List User) : Outcome String × Bool :=
  match get_user_by_email (some email) db with
  | none => (.attrError "confirmed", false)
  | some u =>
    if u.confirmed then (.ok "Your email is already confirmed", false)
    else (.ok "Check your email for confirmation.", true)

/-- Embeds the `POST /auth/request_reset_password` handler
(src/routes/auth.py:126-139): enqueue a reset email only when the user
exists, and in every case return the generic message. -/
def request_reset_password_route (email : String) (db : List User) : Outcome String × Bool :=
  match get_user_by_email (some email) db with
  | none => (.ok "Check your email for confirmation.", false)
  | some _ => (.ok "Check your email for confirmation.", true)

/-- Embeds the `POST /auth/reset_password/{token}` handler
(src/routes/auth.py:142-157): decode via `get_email_from_token`; 400 if the
subject resolves to no user; a non-error "Passwords do not match!" message if
the two submitted passwords differ; otherwise hash (`hashOf` stands for
`auth_service.get_password_hash`) and persist the new password. -/
def reset_password_route (hashOf : String → String) (token : Bearer)
    (password1 password2 : String) (db : List User) (now : Nat) :
    Outcome String × List User :=
  match get_email_from_token token now with
  | .ok email =>
    match get_user_by_email email db with
    | none => (.http 400 "Verification error", db)
    | some u =>
      if password1 ≠ password2 then (.ok "Passwords do not match!", db)
      else (.ok "Password reset successfully", update_password u (hashOf password1) db)
  | .http c d => (.http c d, db)
  | .keyError k => (.keyError k, db)
  | .attrError a => (.attrError a, db)

/-- Embeds the `GET /auth/refresh_token` handler (src/routes/auth.py:160-181):
decode the bearer under refresh scope (propagating `decode_refresh_token`
failures); fetch the user by the decoded email (`user.refresh_token` on a
`None` user raises `AttributeError`); if the stored refresh token differs
from the presented one, null the stored token and raise 401 "Invalid refresh
token"; otherwise issue a fresh access/refresh pair at `now`, persist the new
refresh token, and return the pair. -/
def refresh_token_route (token : Bearer) (db : List User) (now : Nat) :
    Outcome TokenPair × List User :=
  match decode_refresh_token token now with
  | .ok email =>
    match get_user_by_email email db with
    | none => (.attrError "refresh_token", db)
    | some user =>
      if user.refresh_token ≠ some token then
        (.http 401 "Invalid refresh token", update_token user none db)
      else
        let access := create_access_token email none now
        let refresh := create_refresh_token email none now
        (.ok ⟨access, refresh, "bearer"⟩, update_token user (some refresh) db)
  | .http c d => (.http c d, db)
  | .keyError k => (.keyError k, db)
  | .attrError a => (.attrError a, db)

/-- The per-route quota configuration of a `RateLimiter(times, seconds)`
dependency. -/
structure RouteLimit where
  times : Nat
  seconds : Nat
deriving DecidableEq, Repr

/-- The rate-limit configuration declared on each contacts route
(src/routes/contacts.py), keyed by handler name, exactly as enumerated in the
decorators. -/
def contacts_rate_limits : List (String × RouteLimit) :=
  [("get_contacts", ⟨5, 60⟩),
   ("search_contacts", ⟨10, 60⟩),
   ("get_upcoming_birthdays", ⟨5, 60⟩),
   ("get_contact", ⟨10, 60⟩),
   ("create_contact", ⟨2, 180⟩),
   ("update_contact", ⟨5, 120⟩),
   ("remove_contact", ⟨5, 60⟩)]

/-- A live fixed-window counter for one (client, route) key: the number of
calls seen in the current window and the window's absolute expiry. -/
structure RLWindow where
  count : Nat
  expireAt : Nat
deriving DecidableEq, Repr

/-- Modelled from the spec: the fixed-window `allow` operation of the rate
limiter (the `RateLimiter` dependency is the external `fastapi_limiter`
package, not part of this repository's sources).  Per spec §4.5: the call
increments the counter for the key; the first call in a window sets an expiry
of `window` seconds; the call is allowed exactly when the post-increment
count does not exceed `maxCalls`; an over-quota call leaves the counter to
expire naturally.  Returns (allowed?, new counter state). -/
def rl_allow (st : Option RLWindow) (maxCalls window now : Nat) : Bool × RLWindow :=
  match st with
  | none => (1 ≤ maxCalls, ⟨1, now + window⟩)
  | some s =>
    if s.expireAt ≤ now then (1 ≤ maxCalls, ⟨1, now + window⟩)
    else (s.count + 1 ≤ maxCalls, ⟨s.count + 1, s.expireAt⟩)

/-- Example user fixture for concrete counterexamples and witnesses. -/
def alice : User :=
  { id := 1, username := "alice", email := "a@b.com", avatar := none,
    password := "pw", created_at := 0, refresh_token := none, confirmed := false }

/-- The fixture user with a confirmed account. -/
def aliceConfirmed : User := { alice with confirmed := true }

/-- An access token for the fixture user, issued at time 0. -/
def tokAccess : Bearer := create_access_token (some "a@b.com") none 0

/-- A refresh token for the fixture user, issued at time 0. -/
def tokRefresh : Bearer := create_refresh_token (some "a@b.com") none 0

/-- The confirmed fixture user holding `tokRefresh` as stored refresh token. -/
def aliceSession : User := { aliceConfirmed with refresh_token := some tokRefresh }

/-- A concrete password-verification collaborator for witnesses: accepts a
password exactly when it equals the stored hash field. -/
def verifyEq : String → String → Bool := fun plain hashed => plain == hashed

end ContactsApi

namespace ContactsApi

/-- A map over the users table that preserves every row's email commutes with
lookup by email. -/
theorem get_user_by_email_map_preserving (f : User → User)
    (hf : ∀ v, (f v).email = v.email) (e : Option String) (db : List User) :
    get_user_by_email e (db.map f) = (get_user_by_email e db).map f := by
  unfold get_user_by_email
  rw [List.find?_map]
  have hp : ((fun u => decide (some u.email = e)) ∘ f) = (fun u => decide (some u.email = e)) := by
    funext v
    simp [Function.comp, hf]
  rw [hp]

/-- After `update_token`, looking up the same email finds the row with the
new stored refresh token. -/
theorem get_user_by_email_update_token (u : User) (t : Option Bearer)
    (e : Option String) (db : List User) (h : get_user_by_email e db = some u) :
    get_user_by_email e (update_token u t db) = some { u with refresh_token := t } := by
  unfold update_token
  rw [get_user_by_email_map_preserving _ ?_ _ _]
  · rw [h]
    simp
  · intro v
    by_cases hv : v.id = u.id <;> simp [hv]

/-- After the repository confirm-email update, looking up the same email
finds the row with the confirmed flag set. -/
theorem get_user_by_email_set_confirmed (u : User) (e : Option String)
    (db : List User) (h : get_user_by_email e db = some u) :
    get_user_by_email e
        (db.map (fun v => if v.id = u.id then { v with confirmed := true } else v))
      = some { u with confirmed := true } := by
  rw [get_user_by_email_map_preserving _ ?_ _ _]
  · rw [h]
    simp
  · intro v
    by_cases hv : v.id = u.id <;> simp [hv]

/-- Exhaustive case split on the result of `get_email_from_token`: it either
returns the `sub` claim, raises the 422 exception, or raises `KeyError`. -/
theorem get_email_from_token_cases (b : Bearer) (now : Nat) :
    (∃ e, get_email_from_token b now = Outcome.ok e) ∨
    get_email_from_token b now = Outcome.http 422 "Invalid token for email verification" ∨
    get_email_from_token b now = Outcome.keyError "sub" := by
  unfold get_email_from_token jwtDecode
  cases b with
  | garbage s => simp
  | signed p =>
    by_cases hexp : p.exp < now
    · simp [hexp]
    · cases hsub : p.sub with
      | none => simp [hexp, hsub]
      | some e => simp [hexp, hsub]

end ContactsApi

namespace ContactsApi

/-- Claim C1, counterexample: an access-scoped token (valid signature, not
expired) is accepted by the email-confirmation flow and actually confirms the
account, so it is false that the email-confirmation flow accepts only tokens
issued in the email-confirm scope. -/
theorem c1_counterexample :
    get_email_from_token tokAccess 0 = Outcome.ok (some "a@b.com") ∧
    confirmed_email_route tokAccess [alice] 0
      = (Outcome.ok "Email confirmed", [{ alice with confirmed := true }]) := by
  constructor
  · rfl
  · rfl

/-- Claim C1 (amended): the refresh flow succeeds only on tokens whose
embedded scope is "refresh_token", and access-token resolution succeeds only
on tokens whose embedded scope is "access_token"; but the email-confirmation
and password-reset flows perform no scope check at all: any validly signed,
unexpired token carrying a `sub` claim — of any scope, including access and
refresh — is accepted by `get_email_from_token`. -/
theorem c1_scope_enforcement :
    (∀ (b : Bearer) (now : Nat) (e : Option String),
        decode_refresh_token b now = Outcome.ok e →
        ∃ p, b = Bearer.signed p ∧ p.scope = some "refresh_token") ∧
    (∀ (b : Bearer) (db : List User) (cache : List CacheEntry) (now : Nat)
        (u : User) (c' : List CacheEntry),
        get_current_user b db cache now = (Outcome.ok u, c') →
        ∃ p, b = Bearer.signed p ∧ p.scope = some "access_token") ∧
    (∀ (p : Payload) (now : Nat) (s : Option String),
        ¬ p.exp < now → p.sub = some s →
        get_email_from_token (Bearer.signed p) now = Outcome.ok s) := by
  refine ⟨?_, ?_, ?_⟩
  · intro b now e h
    cases b with
    | garbage s => simp [decode_refresh_token, jwtDecode] at h
    | signed p =>
      refine ⟨p, rfl, ?_⟩
      unfold decode_refresh_token jwtDecode at h
      by_cases hexp : p.exp < now
      · simp [hexp] at h
      · simp only [hexp, if_false] at h
        cases hsc : p.scope with
        | none => simp [hsc] at h
        | some sc =>
          rw [hsc] at h
          by_cases hr : sc = "refresh_token"
          · rw [hr]
          · simp [hr] at h
  · intro b db cache now u c' h
    cases b with
    | garbage s => simp [get_current_user, jwtDecode] at h
    | signed p =>
      refine ⟨p, rfl, ?_⟩
      unfold get_current_user jwtDecode at h
      by_cases hexp : p.exp < now
      · simp [hexp] at h
      · simp only [hexp, if_false] at h
        cases hsc : p.scope with
        | none => simp [hsc] at h
        | some sc =>
          rw [hsc] at h
          by_cases ha : sc = "access_token"
          · rw [ha]
          · simp [ha] at h
  · intro p now s hexp hsub
    unfold get_email_from_token jwtDecode
    simp [hexp, hsub]

/-- Claim C1, witness: the amended theorem applied at concrete inputs — a
successful refresh decode of `tokRefresh` certifies its refresh scope, and an
access-scoped payload with a `sub` claim is accepted by the email decode. -/
theorem c1_scope_enforcement_witness :
    (∃ p, tokRefresh = Bearer.signed p ∧ p.scope = some "refresh_token") ∧
    get_email_from_token
        (Bearer.signed ⟨some (some "a@b.com"), some "access_token", 0, 900⟩) 0
      = Outcome.ok (some "a@b.com") :=
  ⟨c1_scope_enforcement.1 tokRefresh 0 (some "a@b.com") rfl,
   c1_scope_enforcement.2.2 ⟨some (some "a@b.com"), some "access_token", 0, 900⟩ 0
     (some "a@b.com") (by decide) rfl⟩

/-- Claim C7, counterexample: two tokens failing refresh-token decoding for
different internal reasons produce observably different user-facing
responses — a signature failure yields 401 "Could not validate credentials"
while a scope mismatch yields 401 "Invalid scope for token" — so the failure
responses are not identical. -/
theorem c7_counterexample :
    decode_refresh_token (Bearer.garbage "xx") 0
      = Outcome.http 401 "Could not validate credentials" ∧
    decode_refresh_token tokAccess 0 = Outcome.http 401 "Invalid scope for token" ∧
    Outcome.http (α := Option String) 401 "Could not validate credentials"
      ≠ Outcome.http 401 "Invalid scope for token" := by
  refine ⟨rfl, rfl, ?_⟩
  decide

/-- Claim C7 (amended): for every token failing verification because of an
invalid signature, expiry, or scope mismatch, both refresh-token decoding and
access-token resolution reject with HTTP status 401; in access-token
resolution the failure response is moreover literally identical (the single
`credentials_exception`, detail "Could not validate credentials", cache
untouched) across all three causes, while refresh-token decoding
distinguishes a scope mismatch from the other causes in its detail string. -/
theorem c7_all_failures_401 (b : Bearer) (now : Nat) :
    ((∃ s, b = Bearer.garbage s) ∨
     (∃ p, b = Bearer.signed p ∧ p.exp < now) ∨
     (∃ p sc, b = Bearer.signed p ∧ ¬ p.exp < now ∧ p.scope = some sc ∧
       sc ≠ "refresh_token") →
      ∃ d, decode_refresh_token b now = Outcome.http 401 d) ∧
    ((∃ s, b = Bearer.garbage s) ∨
     (∃ p, b = Bearer.signed p ∧ p.exp < now) ∨
     (∃ p sc, b = Bearer.signed p ∧ ¬ p.exp < now ∧ p.scope = some sc ∧
       sc ≠ "access_token") →
      ∀ (db : List User) (cache : List CacheEntry),
        get_current_user b db cache now
          = (Outcome.http 401 "Could not validate credentials", cache)) := by
  constructor
  · rintro (⟨s, rfl⟩ | ⟨p, rfl, hexp⟩ | ⟨p, sc, rfl, hexp, hsc, hne⟩)
    · exact ⟨"Could not validate credentials", rfl⟩
    · exact ⟨"Could not validate credentials", by
        unfold decode_refresh_token jwtDecode
        simp [hexp]⟩
    · exact ⟨"Invalid scope for token", by
        unfold decode_refresh_token jwtDecode
        simp [hexp, hsc, hne]⟩
  · rintro (⟨s, rfl⟩ | ⟨p, rfl, hexp⟩ | ⟨p, sc, rfl, hexp, hsc, hne⟩) db cache
    · rfl
    · unfold get_current_user jwtDecode
      simp [hexp]
    · unfold get_current_user jwtDecode
      simp [hexp, hsc, hne]

/-- Claim C7, witness: the amended theorem applied to a concrete
garbage-signature token at time 0, in both flows. -/
theorem c7_all_failures_401_witness :
    (∃ d, decode_refresh_token (Bearer.garbage "xx") 0 = Outcome.http 401 d) ∧
    get_current_user (Bearer.garbage "xx") [] [] 0
      = (Outcome.http 401 "Could not validate credentials", []) :=
  ⟨(c7_all_failures_401 (Bearer.garbage "xx") 0).1 (Or.inl ⟨"xx", rfl⟩),
   (c7_all_failures_401 (Bearer.garbage "xx") 0).2 (Or.inl ⟨"xx", rfl⟩) [] []⟩

end ContactsApi

namespace ContactsApi

/-- Claim C9, counterexample: a malformed (invalidly signed) token presented
to the email-confirmation endpoint produces HTTP status 422, which is neither
200 nor 400, so it is false that no other status is produced for any token
input. -/
theorem c9_counterexample :
    confirmed_email_route (Bearer.garbage "bad") [alice] 0
      = (Outcome.http 422 "Invalid token for email verification", [alice]) ∧
    (422 : Nat) ≠ 200 ∧ (422 : Nat) ≠ 400 := by
  refine ⟨rfl, ?_, ?_⟩ <;> decide

/-- Claim C9 (amended): for every token presented to the email-confirmation
endpoint the outcome is one of exactly four shapes: a 200 message
("already confirmed" or "Email confirmed"), 400 "Verification error" when the
token's subject resolves to no identity, 422 "Invalid token for email
verification" when the token is malformed, invalidly signed or expired, or an
uncaught `KeyError` on "sub" when a well-signed unexpired token omits the
`sub` claim. -/
theorem c9_confirmed_email_statuses (b : Bearer) (db : List User) (now : Nat) :
    (confirmed_email_route b db now).1 = Outcome.ok "Your email is already confirmed" ∨
    (confirmed_email_route b db now).1 = Outcome.ok "Email confirmed" ∨
    (confirmed_email_route b db now).1 = Outcome.http 400 "Verification error" ∨
    (confirmed_email_route b db now).1
      = Outcome.http 422 "Invalid token for email verification" ∨
    (confirmed_email_route b db now).1 = Outcome.keyError "sub" := by
  rcases get_email_from_token_cases b now with ⟨e, he⟩ | he | he
  · cases hu : get_user_by_email e db with
    | none => simp [confirmed_email_route, he, hu]
    | some u =>
      by_cases hc : u.confirmed
      · simp [confirmed_email_route, he, hu, hc]
      · simp [confirmed_email_route, repo_confirmed_email, he, hu, hc]
  · simp [confirmed_email_route, he]
  · simp [confirmed_email_route, he]

/-- Claim C10, counterexample: a well-signed, unexpired token that omits the
`scope` claim but carries a `sub` claim is processed by email-token decoding
without any error at all — it returns the subject — so it is false that such
a token makes all three verification functions raise a key-lookup error. -/
theorem c10_counterexample :
    get_email_from_token (Bearer.signed ⟨some (some "a@b.com"), none, 0, 900⟩) 0
      = Outcome.ok (some "a@b.com") ∧
    get_email_from_token (Bearer.signed ⟨some (some "a@b.com"), none, 0, 900⟩) 0
      ≠ Outcome.keyError "sub" ∧
    get_email_from_token (Bearer.signed ⟨some (some "a@b.com"), none, 0, 900⟩) 0
      ≠ Outcome.keyError "scope" := by
  refine ⟨rfl, ?_, ?_⟩ <;> decide

/-- Claim C10 (amended): for a well-signed unexpired token, each verification
function raises an uncaught `KeyError` exactly when a claim it actually reads
is missing — access-token resolution and refresh-token decoding read `scope`
first and then (under their matching scope) `sub`; email-token decoding reads
only `sub`, so it raises `KeyError` on a missing `sub` but succeeds on a
token that merely lacks `scope` — and in every such case the controlled
Unauthorized/UnprocessableToken path is bypassed because the handlers catch
only `JWTError`. -/
theorem c10_missing_claims_escape (p : Payload) (now : Nat) (hexp : ¬ p.exp < now) :
    (p.scope = none →
      (∀ (db : List User) (cache : List CacheEntry),
        get_current_user (Bearer.signed p) db cache now = (Outcome.keyError "scope", cache)) ∧
      decode_refresh_token (Bearer.signed p) now = Outcome.keyError "scope") ∧
    (p.scope = some "access_token" → p.sub = none →
      ∀ (db : List User) (cache : List CacheEntry),
        get_current_user (Bearer.signed p) db cache now = (Outcome.keyError "sub", cache)) ∧
    (p.scope = some "refresh_token" → p.sub = none →
      decode_refresh_token (Bearer.signed p) now = Outcome.keyError "sub") ∧
    (p.sub = none →
      get_email_from_token (Bearer.signed p) now = Outcome.keyError "sub") ∧
    (∀ s, p.sub = some s →
      get_email_from_token (Bearer.signed p) now = Outcome.ok s) := by
  refine ⟨?_, ?_, ?_, ?_, ?_⟩
  · intro hsc
    constructor
    · intro db cache
      unfold get_current_user jwtDecode
      simp [hexp, hsc]
    · unfold decode_refresh_token jwtDecode
      simp [hexp, hsc]
  · intro hsc hsub db cache
    unfold get_current_user jwtDecode
    simp [hexp, hsc, hsub]
  · intro hsc hsub
    unfold decode_refresh_token jwtDecode
    simp [hexp, hsc, hsub]
  · intro hsub
    unfold get_email_from_token jwtDecode
    simp [hexp, hsub]
  · intro s hsub
    unfold get_email_from_token jwtDecode
    simp [hexp, hsub]

/-- Claim C10, witness: the amended theorem applied to concrete claim-
incomplete payloads at time 0. -/
theorem c10_missing_claims_escape_witness :
    decode_refresh_token (Bearer.signed ⟨some (some "a@b.com"), none, 0, 900⟩) 0
      = Outcome.keyError "scope" ∧
    get_current_user (Bearer.signed ⟨none, some "access_token", 0, 900⟩) [] [] 0
      = (Outcome.keyError "sub", []) ∧
    get_email_from_token (Bearer.signed ⟨some (some "a@b.com"), none, 0, 900⟩) 0
      = Outcome.ok (some "a@b.com") :=
  ⟨((c10_missing_claims_escape ⟨some (some "a@b.com"), none, 0, 900⟩ 0 (by decide)).1
      rfl).2,
   (c10_missing_claims_escape ⟨none, some "access_token", 0, 900⟩ 0 (by decide)).2.1
      rfl rfl [] [],
   (c10_missing_claims_escape ⟨some (some "a@b.com"), none, 0, 900⟩ 0
      (by decide)).2.2.2.2 (some "a@b.com") rfl⟩

end ContactsApi

namespace ContactsApi

/-- Inversion for a successful refresh decode: the token is well-signed,
unexpired, refresh-scoped, and carries the returned subject. -/
theorem decode_refresh_token_ok_inv (b : Bearer) (now : Nat) (subv : Option String)
    (h : decode_refresh_token b now = Outcome.ok subv) :
    ∃ p, b = Bearer.signed p ∧ ¬ p.exp < now ∧
      p.scope = some "refresh_token" ∧ p.sub = some subv := by
  cases b with
  | garbage s => simp [decode_refresh_token, jwtDecode] at h
  | signed p =>
    refine ⟨p, rfl, ?_⟩
    unfold decode_refresh_token jwtDecode at h
    by_cases hexp : p.exp < now
    · simp [hexp] at h
    · refine ⟨hexp, ?_⟩
      simp only [hexp, if_false] at h
      cases hsc : p.scope with
      | none => simp [hsc] at h
      | some sc =>
        rw [hsc] at h
        by_cases hr : sc = "refresh_token"
        · subst hr
          simp only [if_pos rfl] at h
          cases hsub : p.sub with
          | none => simp [hsub] at h
          | some e =>
            rw [hsub] at h
            simp at h
            exact ⟨rfl, by rw [h]⟩
        · simp [hr] at h

/-- Claim C5 (confirmed): access-token resolution is a read-through cache
with no negative caching — a cache hit returns the cached snapshot leaving
the cache unchanged, for EVERY database state (no persistence query); a miss
followed by a persistence hit returns the row and caches it with expiry
`now + 120` (a 120-second TTL); a miss followed by a persistence miss raises
401 and leaves the cache unchanged, so an immediately repeated lookup of the
absent identity hits persistence again and fails identically. -/
theorem c5_cache_read_through (p : Payload) (db : List User) (cache : List CacheEntry)
    (now : Nat) (email : String)
    (hexp : ¬ p.exp < now) (hsc : p.scope = some "access_token")
    (hsub : p.sub = some (some email)) :
    (∀ u, cacheGet cache email now = some u →
      get_current_user (Bearer.signed p) db cache now = (Outcome.ok u, cache)) ∧
    (∀ u, cacheGet cache email now = none → get_user_by_email (some email) db = some u →
      get_current_user (Bearer.signed p) db cache now
        = (Outcome.ok u, cacheSet cache email u (now + 120))) ∧
    (cacheGet cache email now = none → get_user_by_email (some email) db = none →
      get_current_user (Bearer.signed p) db cache now
        = (Outcome.http 401 "Could not validate credentials", cache) ∧
      get_current_user (Bearer.signed p) db
          (get_current_user (Bearer.signed p) db cache now).2 now
        = (Outcome.http 401 "Could not validate credentials", cache)) := by
  refine ⟨?_, ?_, ?_⟩
  · intro u hhit
    simp [get_current_user, jwtDecode, hexp, hsc, hsub, hhit]
  · intro u hmiss hdb
    simp [get_current_user, jwtDecode, hexp, hsc, hsub, hmiss, hdb]
  · intro hmiss hdb
    constructor
    · simp [get_current_user, jwtDecode, hexp, hsc, hsub, hmiss, hdb]
    · simp [get_current_user, jwtDecode, hexp, hsc, hsub, hmiss, hdb]

/-- Claim C5, witness: the theorem applied to the fixture user — a cold-cache
lookup caches the row with expiry 120, a warm-cache hit returns the snapshot,
and an absent identity fails twice without writing to the cache. -/
theorem c5_cache_read_through_witness :
    get_current_user tokAccess [aliceConfirmed] [] 0
      = (Outcome.ok aliceConfirmed, [⟨"a@b.com", aliceConfirmed, 120⟩]) ∧
    get_current_user tokAccess [] [⟨"a@b.com", aliceConfirmed, 120⟩] 0
      = (Outcome.ok aliceConfirmed, [⟨"a@b.com", aliceConfirmed, 120⟩]) ∧
    get_current_user tokAccess [] [] 0
      = (Outcome.http 401 "Could not validate credentials", []) :=
  ⟨(c5_cache_read_through ⟨some (some "a@b.com"), some "access_token", 0, 900⟩
      [aliceConfirmed] [] 0 "a@b.com" (by decide) rfl rfl).2.1 aliceConfirmed rfl rfl,
   (c5_cache_read_through ⟨some (some "a@b.com"), some "access_token", 0, 900⟩
      [] [⟨"a@b.com", aliceConfirmed, 120⟩] 0 "a@b.com" (by decide) rfl rfl).1
      aliceConfirmed rfl,
   ((c5_cache_read_through ⟨some (some "a@b.com"), some "access_token", 0, 900⟩
      [] [] 0 "a@b.com" (by decide) rfl rfl).2.2 rfl rfl).1⟩

/-- Claim C6 (confirmed): confirming an already-confirmed email returns the
"already confirmed" message and leaves the whole users table unchanged;
confirming an unconfirmed existing identity sets exactly its confirmed flag,
and repeating the confirmation afterwards returns the "already confirmed"
message and changes nothing further. -/
theorem c6_confirm_idempotent (b : Bearer) (db : List User) (now : Nat)
    (email : Option String) (u : User)
    (hdec : get_email_from_token b now = Outcome.ok email)
    (hu : get_user_by_email email db = some u) :
    (u.confirmed = true →
      confirmed_email_route b db now = (Outcome.ok "Your email is already confirmed", db)) ∧
    (u.confirmed = false →
      confirmed_email_route b db now
        = (Outcome.ok "Email confirmed",
           db.map (fun v => if v.id = u.id then { v with confirmed := true } else v)) ∧
      confirmed_email_route b
          (db.map (fun v => if v.id = u.id then { v with confirmed := true } else v)) now
        = (Outcome.ok "Your email is already confirmed",
           db.map (fun v => if v.id = u.id then { v with confirmed := true } else v))) := by
  constructor
  · intro hc
    simp [confirmed_email_route, hdec, hu, hc]
  · intro hc
    have hu' := get_user_by_email_set_confirmed u email db hu
    constructor
    · simp [confirmed_email_route, repo_confirmed_email, hdec, hu, hc]
    · simp [confirmed_email_route, hdec, hu', hc]

/-- Claim C6, witness: the theorem applied to the unconfirmed fixture user
with a concrete email-confirm token — the first confirmation flips the flag,
the second returns the "already confirmed" message and leaves the table
as it was. -/
theorem c6_confirm_idempotent_witness :
    confirmed_email_route (create_email_token (some "a@b.com") 0) [alice] 0
      = (Outcome.ok "Email confirmed", [{ alice with confirmed := true }]) ∧
    confirmed_email_route (create_email_token (some "a@b.com") 0)
        [{ alice with confirmed := true }] 0
      = (Outcome.ok "Your email is already confirmed", [{ alice with confirmed := true }]) := by
  have h := (c6_confirm_idempotent (create_email_token (some "a@b.com") 0) [alice] 0
      (some "a@b.com") alice rfl rfl).2 rfl
  exact ⟨h.1, h.2⟩

end ContactsApi

namespace ContactsApi

/-- Claim C2, counterexample: token encoding is deterministic, so a refresh
performed in the same second in which the stored refresh token was issued
re-creates the identical token; after that "rotation" the previously stored
refresh token still equals the stored value and presenting it again SUCCEEDS
instead of being rejected. -/
theorem c2_counterexample :
    refresh_token_route tokRefresh [aliceSession] 0
      = (Outcome.ok ⟨tokAccess, tokRefresh, "bearer"⟩, [aliceSession]) ∧
    (refresh_token_route tokRefresh
        ((refresh_token_route tokRefresh [aliceSession] 0).2) 0).1
      = Outcome.ok ⟨tokAccess, tokRefresh, "bearer"⟩ := by
  constructor <;> rfl

/-- Claim C2 (amended): for a bearer token that decodes validly under refresh
scope and resolves to a stored identity — if the presented token differs from
the stored refresh-token value, the request is rejected with 401 and the
stored value is set to null; if it matches, a new access/refresh pair is
issued and the new refresh token is persisted, and PROVIDED the newly issued
refresh token differs from the presented one (which can fail only when the
rotation happens in the very second the stored token was issued, since
encoding is deterministic on subject, scope, `iat` and `exp`), the previously
stored refresh token no longer equals the stored value and presenting it
again at any later time is rejected with 401. -/
theorem c2_refresh_rotation (b : Bearer) (db : List User) (now : Nat)
    (subv : Option String) (u : User)
    (hdec : decode_refresh_token b now = Outcome.ok subv)
    (hu : get_user_by_email subv db = some u) :
    (u.refresh_token ≠ some b →
      refresh_token_route b db now
        = (Outcome.http 401 "Invalid refresh token", update_token u none db) ∧
      get_user_by_email subv (update_token u none db)
        = some { u with refresh_token := none }) ∧
    (u.refresh_token = some b →
      refresh_token_route b db now
        = (Outcome.ok ⟨create_access_token subv none now,
                       create_refresh_token subv none now, "bearer"⟩,
           update_token u (some (create_refresh_token subv none now)) db) ∧
      get_user_by_email subv
          (update_token u (some (create_refresh_token subv none now)) db)
        = some { u with refresh_token := some (create_refresh_token subv none now) } ∧
      (create_refresh_token subv none now ≠ b →
        ∀ now2, ∃ d,
          (refresh_token_route b
              (update_token u (some (create_refresh_token subv none now)) db) now2).1
            = Outcome.http 401 d)) := by
  constructor
  · intro hne
    refine ⟨?_, get_user_by_email_update_token u none subv db hu⟩
    simp [refresh_token_route, hdec, hu, hne]
  · intro heq
    have hu' := get_user_by_email_update_token u
      (some (create_refresh_token subv none now)) subv db hu
    refine ⟨?_, hu', ?_⟩
    · simp [refresh_token_route, hdec, hu, heq]
    · intro hne now2
      obtain ⟨p, hb, hexp, hsc, hsub⟩ := decode_refresh_token_ok_inv b now subv hdec
      by_cases hexp2 : p.exp < now2
      · refine ⟨"Could not validate credentials", ?_⟩
        subst hb
        simp [refresh_token_route, decode_refresh_token, jwtDecode, hexp2]
      · have hdec2 : decode_refresh_token b now2 = Outcome.ok subv := by
          subst hb
          simp [decode_refresh_token, jwtDecode, hexp2, hsc, hsub]
        refine ⟨"Invalid refresh token", ?_⟩
        have hmismatch : ({ u with
            refresh_token := some (create_refresh_token subv none now) } : User).refresh_token
            ≠ some b := by
          simp only [ne_eq, Option.some.injEq]
          exact hne
        simp [refresh_token_route, hdec2, hu', hmismatch]

/-- Claim C2, witness: the amended theorem applied to the fixture session —
a mismatched presented token is rejected and nulls the stored value; a
matching one at a later second (`now = 1`) rotates the stored token, after
which replaying the old token at time 2 is rejected with 401. -/
theorem c2_refresh_rotation_witness :
    refresh_token_route (Bearer.garbage "stolen") [aliceSession] 0
      = (Outcome.http 401 "Could not validate credentials", [aliceSession]) ∧
    refresh_token_route tokRefresh [aliceSession] 1
      = (Outcome.ok ⟨create_access_token (some "a@b.com") none 1,
                     create_refresh_token (some "a@b.com") none 1, "bearer"⟩,
         [{ aliceSession with
            refresh_token := some (create_refresh_token (some "a@b.com") none 1) }]) ∧
    (∃ d, (refresh_token_route tokRefresh
        (update_token aliceSession
          (some (create_refresh_token (some "a@b.com") none 1)) [aliceSession]) 2).1
      = Outcome.http 401 d) := by
  have h := (c2_refresh_rotation tokRefresh [aliceSession] 1 (some "a@b.com")
      aliceSession rfl rfl).2 rfl
  refine ⟨rfl, ?_, h.2.2 (by decide) 2⟩
  have h1 := h.1
  simpa [update_token, aliceSession, aliceConfirmed, alice] using h1

end ContactsApi

namespace ContactsApi

/-- Claim C4 (confirmed): login rejects with 401 exactly when the identity
for the submitted email is absent, when it is not confirmed, or when password
verification against the stored hash fails; in every other case it returns a
freshly issued access/refresh pair with token type "bearer" and persists the
new refresh token onto that identity, overwriting any previously stored
value. -/
theorem c4_login_cases (verify : String → String → Bool) (db : List User)
    (username password : String) (now : Nat) :
    (get_user_by_email (some username) db = none →
      login verify db username password now = (Outcome.http 401 "Invalid email", db)) ∧
    (∀ u, get_user_by_email (some username) db = some u →
      (u.confirmed = false →
        login verify db username password now
          = (Outcome.http 401 "Email not confirmed", db)) ∧
      (u.confirmed = true → verify password u.password = false →
        login verify db username password now
          = (Outcome.http 401 "Invalid password", db)) ∧
      (u.confirmed = true → verify password u.password = true →
        login verify db username password now
          = (Outcome.ok ⟨create_access_token (some u.email) none now,
                         create_refresh_token (some u.email) none now, "bearer"⟩,
             update_token u (some (create_refresh_token (some u.email) none now)) db) ∧
        get_user_by_email (some username)
            (update_token u (some (create_refresh_token (some u.email) none now)) db)
          = some { u with
                   refresh_token := some (create_refresh_token (some u.email) none now) })) := by
  constructor
  · intro hnone
    simp [login, hnone]
  · intro u hu
    refine ⟨?_, ?_, ?_⟩
    · intro hc
      simp [login, hu, hc]
    · intro hc hv
      simp [login, hu, hc, hv]
    · intro hc hv
      refine ⟨?_, get_user_by_email_update_token u
        (some (create_refresh_token (some u.email) none now)) (some username) db hu⟩
      simp [login, hu, hc, hv]

/-- Claim C4, witness: the theorem applied to the confirmed fixture user with
the equality verifier — an unknown email, a wrong password, and a correct
login, the last persisting the new refresh token. -/
theorem c4_login_cases_witness :
    login verifyEq [aliceConfirmed] "ghost@b.com" "pw" 0
      = (Outcome.http 401 "Invalid email", [aliceConfirmed]) ∧
    login verifyEq [aliceConfirmed] "a@b.com" "wrong" 0
      = (Outcome.http 401 "Invalid password", [aliceConfirmed]) ∧
    login verifyEq [aliceConfirmed] "a@b.com" "pw" 0
      = (Outcome.ok ⟨tokAccess, tokRefresh, "bearer"⟩, [aliceSession]) := by
  refine ⟨(c4_login_cases verifyEq [aliceConfirmed] "ghost@b.com" "pw" 0).1 (by decide),
    ((c4_login_cases verifyEq [aliceConfirmed] "a@b.com" "wrong" 0).2
      aliceConfirmed rfl).2.1 rfl (by decide), ?_⟩
  have h := (((c4_login_cases verifyEq [aliceConfirmed] "a@b.com" "pw" 0).2
      aliceConfirmed rfl).2.2 rfl (by decide)).1
  rw [h]
  rfl

/-- Claim C3, code bug: the request-confirmation handler dereferences
`user.confirmed` before its `if user:` guard, so an email with no account
raises `AttributeError` (an unhandled server error) instead of returning the
generic 200 message, while the request-password-reset handler returns the
generic message for the same unknown address; known addresses behave as
documented in both handlers. -/
theorem c3_request_email_crash :
    request_email_route "ghost@example.com" [aliceConfirmed]
      = (Outcome.attrError "confirmed", false) ∧
    request_reset_password_route "ghost@example.com" [aliceConfirmed]
      = (Outcome.ok "Check your email for confirmation.", false) ∧
    request_email_route "a@b.com" [aliceConfirmed]
      = (Outcome.ok "Your email is already confirmed", false) ∧
    request_email_route "a@b.com" [alice]
      = (Outcome.ok "Check your email for confirmation.", true) ∧
    request_reset_password_route "a@b.com" [aliceConfirmed]
      = (Outcome.ok "Check your email for confirmation.", true) := by
  refine ⟨rfl, rfl, rfl, rfl, rfl⟩

/-- Claim C8 (confirmed): each protected contact route declares exactly its
documented fixed-window quota — list 5/60 s, single-item read 10/60 s, create
2/180 s, update 5/120 s, delete 5/60 s — and under a 5-per-60-seconds quota a
window opened at `t0` admits the first five calls, rejects the 6th call made
before `t0 + 60`, and a call at or after window expiry (e.g. `t0 + 60 + 1`)
is admitted and starts a fresh window. -/
theorem c8_rate_limit_quotas :
    contacts_rate_limits.lookup "get_contacts" = some ⟨5, 60⟩ ∧
    contacts_rate_limits.lookup "get_contact" = some ⟨10, 60⟩ ∧
    contacts_rate_limits.lookup "create_contact" = some ⟨2, 180⟩ ∧
    contacts_rate_limits.lookup "update_contact" = some ⟨5, 120⟩ ∧
    contacts_rate_limits.lookup "remove_contact" = some ⟨5, 60⟩ ∧
    (∀ t0 t1 t2 t3 t4 t5 t6 : Nat,
      t1 < t0 + 60 → t2 < t0 + 60 → t3 < t0 + 60 → t4 < t0 + 60 → t5 < t0 + 60 →
      t0 + 60 ≤ t6 →
      rl_allow none 5 60 t0 = (true, ⟨1, t0 + 60⟩) ∧
      rl_allow (some ⟨1, t0 + 60⟩) 5 60 t1 = (true, ⟨2, t0 + 60⟩) ∧
      rl_allow (some ⟨2, t0 + 60⟩) 5 60 t2 = (true, ⟨3, t0 + 60⟩) ∧
      rl_allow (some ⟨3, t0 + 60⟩) 5 60 t3 = (true, ⟨4, t0 + 60⟩) ∧
      rl_allow (some ⟨4, t0 + 60⟩) 5 60 t4 = (true, ⟨5, t0 + 60⟩) ∧
      rl_allow (some ⟨5, t0 + 60⟩) 5 60 t5 = (false, ⟨6, t0 + 60⟩) ∧
      rl_allow (some ⟨6, t0 + 60⟩) 5 60 t6 = (true, ⟨1, t6 + 60⟩)) := by
  refine ⟨rfl, rfl, rfl, rfl, rfl, ?_⟩
  intro t0 t1 t2 t3 t4 t5 t6 h1 h2 h3 h4 h5 h6
  refine ⟨rfl, ?_, ?_, ?_, ?_, ?_, ?_⟩
  · simp only [rl_allow]
    rw [if_neg (by omega)]
    simp
  · simp only [rl_allow]
    rw [if_neg (by omega)]
    simp
  · simp only [rl_allow]
    rw [if_neg (by omega)]
    simp
  · simp only [rl_allow]
    rw [if_neg (by omega)]
    simp
  · simp only [rl_allow]
    rw [if_neg (by omega)]
    simp
  · simp only [rl_allow]
    rw [if_pos (by omega)]
    simp

/-- Claim C8, witness: the window theorem applied at the concrete trace
0, 10, 20, 30, 40, 50, 61 — the 6th call (at 50 s) is rejected, the call at
61 s starts a new window. -/
theorem c8_rate_limit_quotas_witness :
    rl_allow (some ⟨5, 60⟩) 5 60 50 = (false, ⟨6, 60⟩) ∧
    rl_allow (some ⟨6, 60⟩) 5 60 61 = (true, ⟨1, 121⟩) := by
  have h := c8_rate_limit_quotas.2.2.2.2.2 0 10 20 30 40 50 61
    (by decide) (by decide) (by decide) (by decide) (by decide) (by decide)
  exact ⟨h.2.2.2.2.2.1, h.2.2.2.2.2.2⟩

end ContactsApi
